import Mathlib

/-!
Shallow embedding of LLGL sources/Renderer/RenderSystem.cpp: the plugin
factory and lifecycle registry for render-system modules.  Pure data is
embedded as Lean structures; the stateful member functions become explicit
state-passing functions on the Pimpl state; the module boundary
(RenderSystemRegistry, RenderSystemModule, the Report class and the
LLGL_ASSERT trap, which live outside the embedded translation unit) is
modelled from the specification as oracle parameters and simple cells.
-/

namespace LLGL

/-- Renderer info payload, opaque to this core (filled in by the backend). -/
structure RendererInfo where
  data : Nat
  deriving DecidableEq

/-- Rendering capabilities payload, opaque to this core. -/
structure RenderingCapabilities where
  data : Nat
  deriving DecidableEq

/-- Modelled from the spec: the Report class (Core, not under src).  A
message cell holding text and an error flag; a never-populated report is
distinguishable from a populated report with an empty message. -/
structure Report where
  populated : Bool
  text : String
  hasError : Bool
  deriving DecidableEq

/-- A fresh, never-populated report. -/
def Report.init : Report := { populated := false, text := "", hasError := false }

/-- Modelled from the spec: reset overwrites the payload and marks the
report as populated. -/
def Report.Reset (_r : Report) (text : String) (hasError : Bool) : Report :=
  { populated := true, text := text, hasError := hasError }

/-- Modelled from the spec: the conversion of a Report to bool used by
GetReport distinguishes a populated report from a never-populated one. -/
def Report.toBool (r : Report) : Bool := r.populated

/-- Modelled from the spec: the Report Errorf member formats the message
and resets the report with it as an error. -/
def Report.Errorf (r : Report) (formatted : String) : Report :=
  r.Reset formatted true

/-- RenderSystem::Pimpl (lines 48-57 of RenderSystem.cpp). -/
structure Pimpl where
  rendererID : Int := 0
  name : String := ""
  hasInfo : Bool := false
  info : RendererInfo := { data := 0 }
  hasCaps : Bool := false
  caps : RenderingCapabilities := { data := 0 }
  report : Report := Report.init
  deriving DecidableEq

/-- The Pimpl state of a freshly constructed RenderSystem. -/
def Pimpl.init : Pimpl := {}

/-- A live render-system object: either a concrete backend instance or a
DbgRenderSystem decorator owning an inner instance.  Every node carries its
own Pimpl state, as every RenderSystem object in the source does. -/
inductive RenderSystem where
  | concrete (st : Pimpl)
  | debug (st : Pimpl) (breakOnError : Bool) (inner : RenderSystem)
  deriving DecidableEq

/-- The pimpl state owned by the outermost object of a handle. -/
def RenderSystem.pimpl : RenderSystem → Pimpl
  | .concrete st => st
  | .debug st _ _ => st

/-- The identity assignment of Load, lines 157-158: writes name and
rendererID into the pimpl of the object the returned handle points at. -/
def RenderSystem.setPimplIdentity : RenderSystem → String → Int → RenderSystem
  | .concrete st, n, i => .concrete { st with name := n, rendererID := i }
  | .debug st b inner, n, i => .debug { st with name := n, rendererID := i } b inner

/-- RenderSystem::GetName (lines 192-195): reads the pimpl of the object
the handle points at (non-virtual). -/
def RenderSystem.GetName (rs : RenderSystem) : String := rs.pimpl.name

/-- RenderSystem::GetRendererID (lines 187-190). -/
def RenderSystem.GetRendererID (rs : RenderSystem) : Int := rs.pimpl.rendererID

/-- Outcome of the module factory entry point: it either returns a pointer
(possibly null) to a freshly constructed concrete instance, or raises an
exception carrying a message. -/
inductive AllocResult where
  | ok (rs : Option Pimpl)
  | thrown (msg : String)

/-- The caller-supplied debugger object (RenderingDebugger, not under src);
only its break-on-error switch matters to this core. -/
structure RenderingDebugger where
  breakOnError : Bool
  deriving DecidableEq

namespace RenderSystemFlags

/-- Modelled from the spec: the DebugBreakOnError request flag bit
(RenderSystemFlags header, not under src). -/
def DebugBreakOnError : Nat := 1

end RenderSystemFlags

/-- RenderSystemDescriptor fields read by Load. -/
structure RenderSystemDescriptor where
  moduleName : String
  debugger : Option RenderingDebugger
  flags : Nat

/-- Modelled from the spec: a resolved module handle (RenderSystemModule,
not under src) exposing a build-compatibility token, identity accessors and
the factory entry point. -/
structure RenderSystemModule where
  buildID : Nat
  rendererName : String
  rendererID : Int
  allocRenderSystem : RenderSystemDescriptor → AllocResult

/-- Observable outcome of one Load call: the returned handle, the state of
the caller-supplied report sink, whether the factory entry point of the
module was invoked, and whether RegisterRenderSystem was called. -/
structure LoadOutcome where
  renderSystem : Option RenderSystem
  report : Option Report
  factoryInvoked : Bool
  registered : Bool

/-- Modelled from the spec: ReportException (Core/Exception, not under src)
writes the formatted message into the caller-supplied report as an error,
when a report sink is present, and yields a null instance. -/
def ReportException (report : Option Report) (msg : String) : Option Report :=
  report.map fun r => r.Reset msg true

/-- RenderSystem::Load, dynamic-module path (lines 119-172), compiled with
exception support; the enableDebugLayer argument is the
LLGL_ENABLE_DEBUG_LAYER build option, hostBuildID is LLGL_BUILD_ID and
resolve is the result of RenderSystemRegistry LoadModule (null on
resolution failure, after the registry reported the failure itself). -/
def Load (enableDebugLayer : Bool) (hostBuildID : Nat)
    (resolve : Option RenderSystemModule)
    (renderSystemDesc : RenderSystemDescriptor) (report : Option Report) : LoadOutcome :=
  match resolve with
  | none =>
      { renderSystem := none, report := report, factoryInvoked := false, registered := false }
  | some module =>
      if module.buildID ≠ hostBuildID then
        { renderSystem := none
          report := ReportException report ("build ID mismatch in render system module")
          factoryInvoked := false
          registered := false }
      else
        match module.allocRenderSystem renderSystemDesc with
        | .thrown msg =>
            { renderSystem := none
              report := ReportException report msg
              factoryInvoked := true
              registered := false }
        | .ok none =>
            { renderSystem := none, report := report, factoryInvoked := true, registered := false }
        | .ok (some st) =>
            match renderSystemDesc.debugger with
            | some dbg =>
                if enableDebugLayer then
                  let b :=
                    if renderSystemDesc.flags &&& RenderSystemFlags.DebugBreakOnError ≠ 0 then
                      true
                    else
                      dbg.breakOnError
                  let wrapped := RenderSystem.debug Pimpl.init b (.concrete st)
                  { renderSystem :=
                      some (wrapped.setPimplIdentity module.rendererName module.rendererID)
                    report := report
                    factoryInvoked := true
                    registered := true }
                else
                  { renderSystem :=
                      some ((RenderSystem.concrete st).setPimplIdentity
                        module.rendererName module.rendererID)
                    report :=
                      report.map fun r =>
                        r.Errorf ("LLGL was not compiled with debug layer support")
                    factoryInvoked := true
                    registered := true }
            | none =>
                { renderSystem :=
                    some ((RenderSystem.concrete st).setPimplIdentity
                      module.rendererName module.rendererID)
                  report := report
                  factoryInvoked := true
                  registered := true }

/-- Observable events of one Unload call: destructor runs of the objects of
the handle and the registry unregister call with the raw pointer value. -/
inductive UnloadEvent where
  | destroyedDbg
  | destroyedConcrete
  | unregisterRenderSystem (rawPtr : Nat)
  deriving DecidableEq

/-- Destructor sequence of a render-system object: a DbgRenderSystem
decorator runs its own destructor and then destroys the inner instance it
exclusively owns (outermost-first, per C++ member destruction order). -/
def RenderSystem.destroyEvents : RenderSystem → List UnloadEvent
  | .concrete _ => [.destroyedConcrete]
  | .debug _ _ inner => .destroyedDbg :: inner.destroyEvents

/-- RenderSystem::Unload (lines 177-185) as its event trace.  The argument
models the RenderSystemPtr: the raw pointer value together with the object
it points at, or none for a null pointer.  The source takes the raw pointer
with get(), resets the smart pointer (running the full destructor chain)
and only then calls UnregisterRenderSystem with the raw pointer value. -/
def Unload (renderSystem : Option (Nat × RenderSystem)) : List UnloadEvent :=
  match renderSystem with
  | none => []
  | some (p, inst) => inst.destroyEvents ++ [UnloadEvent.unregisterRenderSystem p]

/-- Modelled from the spec: the registry unregister operation removes the
association recorded for the given raw instance pointer; destructor events
do not touch the registry. -/
def applyUnloadEvent (reg : List Nat) : UnloadEvent → List Nat
  | UnloadEvent.unregisterRenderSystem p => reg.erase p
  | _ => reg

/-- Registry state after a trace of unload events. -/
def applyUnloadEvents (reg : List Nat) (events : List UnloadEvent) : List Nat :=
  events.foldl applyUnloadEvent reg

/-- RenderSystem::GetRendererInfo (lines 197-205).  QueryRendererDetails is
a virtual call into the backend, modelled as the oracle argument: whether
the query succeeds and the value it writes on success.  The third component
records whether the query was invoked. -/
def GetRendererInfo (query : Bool × RendererInfo) (st : Pimpl) : Pimpl × RendererInfo × Bool :=
  if st.hasInfo then
    (st, st.info, false)
  else if query.1 then
    ({ st with hasInfo := true, info := query.2 }, query.2, true)
  else
    (st, st.info, true)

/-- RenderSystem::GetRenderingCaps (lines 207-215), same lazy pattern. -/
def GetRenderingCaps (query : Bool × RenderingCapabilities) (st : Pimpl) :
    Pimpl × RenderingCapabilities × Bool :=
  if st.hasCaps then
    (st, st.caps, false)
  else if query.1 then
    ({ st with hasCaps := true, caps := query.2 }, query.2, true)
  else
    (st, st.caps, true)

/-- Repeated calls to GetRendererInfo.  The oracle f gives the outcome of
the k-th invocation of the underlying query; the Nat accumulator is the
number of queries invoked so far and the result counts all queries. -/
def runGetInfo (f : Nat → Bool × RendererInfo) : Nat → Pimpl → Nat → Pimpl × Nat
  | 0, st, k => (st, k)
  | n + 1, st, k =>
      match GetRendererInfo (f k) st with
      | (st2, _, queried) => runGetInfo f n st2 (if queried then k + 1 else k)

/-- Repeated calls to GetRenderingCaps. -/
def runGetCaps (f : Nat → Bool × RenderingCapabilities) : Nat → Pimpl → Nat → Pimpl × Nat
  | 0, st, k => (st, k)
  | n + 1, st, k =>
      match GetRenderingCaps (f k) st with
      | (st2, _, queried) => runGetCaps f n st2 (if queried then k + 1 else k)

/-- RenderSystem::GetReport (lines 217-220): null unless the report
converts to true. -/
def GetReport (st : Pimpl) : Option Report :=
  if st.report.toBool then some st.report else none

/-- RenderSystem::Errorf (lines 232-237): formats the arguments (modelled
as taking the already formatted string) and resets the mutable report with
it as an error. -/
def Errorf (formatted : String) (st : Pimpl) : Pimpl :=
  { st with report := st.report.Reset formatted true }

/-- Modelled from the spec: LLGL_ASSERT (Core/Assertion, not under src) is
an assertion-style abort of the single operation being validated, carrying
the formatted message. -/
def LLGL_ASSERT (cond : Prop) [Decidable cond] (msg : String) : Except String Unit :=
  if cond then Except.ok () else Except.error msg

namespace BindFlags

/-- Modelled from the spec: bind flag bit values from the public
ResourceFlags header, which is not under src. -/
def VertexBuffer : Nat := 1

def IndexBuffer : Nat := 2

def ConstantBuffer : Nat := 4

def StreamOutputBuffer : Nat := 8

def IndirectBuffer : Nat := 16

def Sampled : Nat := 32

def Storage : Nat := 64

def ColorAttachment : Nat := 128

def DepthStencilAttachment : Nat := 256

def CombinedSampler : Nat := 512

def CopySrc : Nat := 1024

def CopyDst : Nat := 2048

end BindFlags

/-- BufferDescriptor fields read by AssertCreateBuffer: size is uint64 and
bindFlags is a long holding flag bits. -/
structure BufferDescriptor where
  size : Nat
  bindFlags : Nat
  deriving DecidableEq

/-- The fixed allowed set of bind flags (lines 247-258). -/
def validBindFlags : Nat :=
  BindFlags.VertexBuffer ||| BindFlags.IndexBuffer ||| BindFlags.ConstantBuffer |||
  BindFlags.Sampled ||| BindFlags.Storage ||| BindFlags.StreamOutputBuffer |||
  BindFlags.IndirectBuffer ||| BindFlags.CopySrc ||| BindFlags.CopyDst

/-- All bits of a machine long (64 bits); the complement in the source is
taken at this width. -/
def LONG_MASK : Nat := 2 ^ 64 - 1

/-- RenderSystem::AssertCreateBuffer (lines 239-265): size must not exceed
the caller-supplied maximum and the bind flags must have no bit outside
validBindFlags. -/
def AssertCreateBuffer (bufferDesc : BufferDescriptor) (maxSize : Nat) : Except String Unit := do
  LLGL_ASSERT (bufferDesc.size ≤ maxSize)
    ("buffer descriptor with size of " ++ toString bufferDesc.size ++
      " exceeded limit of " ++ toString maxSize)
  LLGL_ASSERT (bufferDesc.bindFlags &&& (LONG_MASK ^^^ validBindFlags) = 0)
    ("buffer descriptor with invalid binding flags " ++ toString bufferDesc.bindFlags)

/-- The for_range loop of AssertCreateResourceArrayCommon (lines 276-277):
checks the n elements starting at index i in index order; the array read is
modelled as a function from index to whether the element pointer is
non-null. -/
def assertArrayElements (resourceArray : Nat → Bool) (resourceName : String) :
    Nat → Nat → Except String Unit
  | 0, _ => Except.ok ()
  | n + 1, i => do
      LLGL_ASSERT (resourceArray i = true)
        ("cannot create " ++ resourceName ++
          " array with null pointer for array element [" ++ toString i ++ "]")
      assertArrayElements resourceArray resourceName n (i + 1)

/-- AssertCreateResourceArrayCommon (lines 267-278): the array pointer is
modelled as none for a null array pointer and some f for a non-null array
whose element at index i is non-null exactly when f i is true. -/
def AssertCreateResourceArrayCommon (numResources : Nat)
    (resourceArray : Option (Nat → Bool)) (resourceName : String) : Except String Unit := do
  LLGL_ASSERT (¬(numResources = 0))
    ("cannot create " ++ resourceName ++ " array with zero elements")
  LLGL_ASSERT (¬(resourceArray.isNone = true))
    ("cannot create " ++ resourceName ++ " array with null pointer for array")
  match resourceArray with
  | some arr => assertArrayElements arr resourceName numResources 0
  | none => Except.ok ()

/-- RenderSystem::AssertCreateBufferArray (lines 280-284). -/
def AssertCreateBufferArray (numBuffers : Nat) (bufferArray : Option (Nat → Bool)) :
    Except String Unit :=
  AssertCreateResourceArrayCommon numBuffers bufferArray ("buffer")

/-! Concrete fixtures used by the witness theorems. -/

/-- A descriptor requesting no debugger. -/
def nullDesc : RenderSystemDescriptor :=
  { moduleName := "Null", debugger := none, flags := 0 }

/-- A descriptor requesting a debugger, without the break-on-error flag. -/
def dbgDesc : RenderSystemDescriptor :=
  { moduleName := "Null", debugger := some { breakOnError := false }, flags := 0 }

/-- A stub module whose factory succeeds. -/
def okModule : RenderSystemModule :=
  { buildID := 7
    rendererName := "Null"
    rendererID := 1
    allocRenderSystem := fun _ => AllocResult.ok (some Pimpl.init) }

/-- A stub module carrying a build ID different from the host token used in
the witnesses. -/
def mismatchModule : RenderSystemModule :=
  { buildID := 3
    rendererName := "Null"
    rendererID := 1
    allocRenderSystem := fun _ => AllocResult.ok (some Pimpl.init) }

/-- A stub module whose factory raises an exception. -/
def throwModule : RenderSystemModule :=
  { buildID := 7
    rendererName := "Null"
    rendererID := 1
    allocRenderSystem := fun _ => AllocResult.thrown ("module failure") }

/-! Helper lemmas. -/

theorem setPimplIdentity_GetName (rs : RenderSystem) (n : String) (i : Int) :
    (rs.setPimplIdentity n i).GetName = n := by
  cases rs <;> rfl

theorem setPimplIdentity_GetRendererID (rs : RenderSystem) (n : String) (i : Int) :
    (rs.setPimplIdentity n i).GetRendererID = i := by
  cases rs <;> rfl

theorem Load_mismatch_eq (e : Bool) (host : Nat) (module : RenderSystemModule)
    (desc : RenderSystemDescriptor) (report : Option Report)
    (h : ¬ module.buildID = host) :
    Load e host (some module) desc report =
      { renderSystem := none
        report := ReportException report ("build ID mismatch in render system module")
        factoryInvoked := false
        registered := false } := by
  simp [Load, h]

theorem Load_thrown_eq (e : Bool) (host : Nat) (module : RenderSystemModule)
    (desc : RenderSystemDescriptor) (report : Option Report) (msg : String)
    (hb : module.buildID = host)
    (ha : module.allocRenderSystem desc = AllocResult.thrown msg) :
    Load e host (some module) desc report =
      { renderSystem := none
        report := ReportException report msg
        factoryInvoked := true
        registered := false } := by
  simp [Load, hb, ha]

theorem Load_alloc_null_eq (e : Bool) (host : Nat) (module : RenderSystemModule)
    (desc : RenderSystemDescriptor) (report : Option Report)
    (hb : module.buildID = host)
    (ha : module.allocRenderSystem desc = AllocResult.ok none) :
    Load e host (some module) desc report =
      { renderSystem := none
        report := report
        factoryInvoked := true
        registered := false } := by
  simp [Load, hb, ha]

theorem Load_ok_some_spec (e : Bool) (host : Nat) (module : RenderSystemModule)
    (desc : RenderSystemDescriptor) (report : Option Report) (st : Pimpl)
    (hb : module.buildID = host)
    (ha : module.allocRenderSystem desc = AllocResult.ok (some st)) :
    (Load e host (some module) desc report).registered = true ∧
    (Load e host (some module) desc report).factoryInvoked = true ∧
    ∃ rs, (Load e host (some module) desc report).renderSystem = some rs ∧
      rs.GetName = module.rendererName ∧ rs.GetRendererID = module.rendererID := by
  cases e <;> cases hd : desc.debugger <;>
    simp [Load, hb, ha, hd, setPimplIdentity_GetName, setPimplIdentity_GetRendererID]

/-- Claim C1: a resolved module whose build-compatibility token differs from
the host token makes Load fail: no instance is returned, the mismatch is
reported through the report channel when a sink is present, the factory
entry point of the module is never invoked and nothing is registered. -/
theorem load_rejects_build_mismatch (enableDebugLayer : Bool) (hostBuildID : Nat)
    (module : RenderSystemModule) (desc : RenderSystemDescriptor) (report : Option Report)
    (h : module.buildID ≠ hostBuildID) :
    (Load enableDebugLayer hostBuildID (some module) desc report).renderSystem = none ∧
    (Load enableDebugLayer hostBuildID (some module) desc report).factoryInvoked = false ∧
    (Load enableDebugLayer hostBuildID (some module) desc report).registered = false ∧
    ∀ r, report = some r →
      (Load enableDebugLayer hostBuildID (some module) desc report).report =
        some (r.Reset ("build ID mismatch in render system module") true) := by
  rw [Load_mismatch_eq enableDebugLayer hostBuildID module desc report h]
  refine ⟨rfl, rfl, rfl, ?_⟩
  intro r hr
  subst hr
  rfl

/-- Claim C1 witness: concrete mismatching module. -/
theorem load_rejects_build_mismatch_witness :
    (Load true 7 (some mismatchModule) nullDesc (some Report.init)).factoryInvoked = false ∧
    (Load true 7 (some mismatchModule) nullDesc (some Report.init)).renderSystem = none :=
  ⟨(load_rejects_build_mismatch true 7 mismatchModule nullDesc (some Report.init)
      (by decide)).2.1,
    (load_rejects_build_mismatch true 7 mismatchModule nullDesc (some Report.init)
      (by decide)).1⟩

/-- Claim C2: unloading a non-null handle first runs the full destructor
chain of the instance (outermost decorator first) and only afterwards calls
the registry unregister operation, which receives only the raw pointer
value; every event before the unregister call is a destructor run. -/
theorem unload_destroys_then_unregisters (p : Nat) (inst : RenderSystem) :
    Unload (some (p, inst)) =
      inst.destroyEvents ++ [UnloadEvent.unregisterRenderSystem p] ∧
    inst.destroyEvents ≠ [] ∧
    ∀ ev ∈ inst.destroyEvents,
      ev = UnloadEvent.destroyedDbg ∨ ev = UnloadEvent.destroyedConcrete := by
  refine ⟨rfl, ?_, ?_⟩
  · cases inst <;> simp [RenderSystem.destroyEvents]
  · induction inst with
    | concrete st =>
        intro ev hev
        simp [RenderSystem.destroyEvents] at hev
        exact Or.inr hev
    | debug st b inner ih =>
        intro ev hev
        simp [RenderSystem.destroyEvents] at hev
        rcases hev with hev | hev
        · exact Or.inl hev
        · exact ih ev hev

/-- Claim C2 witness: a decorated instance at a concrete pointer value. -/
theorem unload_destroys_then_unregisters_witness :
    Unload (some (5, RenderSystem.debug Pimpl.init false (RenderSystem.concrete Pimpl.init))) =
      (RenderSystem.debug Pimpl.init false (RenderSystem.concrete Pimpl.init)).destroyEvents ++
        [UnloadEvent.unregisterRenderSystem 5] :=
  (unload_destroys_then_unregisters 5
    (RenderSystem.debug Pimpl.init false (RenderSystem.concrete Pimpl.init))).1

/-- Claim C10: unloading a handle holding a null pointer is a no-op: the
event trace is empty and the registry state is unchanged. -/
theorem unload_null_noop :
    Unload none = [] ∧ ∀ reg : List Nat, applyUnloadEvents reg (Unload none) = reg :=
  ⟨rfl, fun _ => rfl⟩

/-- Claim C4: requesting a debugger on a host built without the debug
layer still yields the working, undecorated, registered instance, and the
unavailable capability is reported through the report channel instead of
failing the load. -/
theorem load_degrades_without_debug_layer (hostBuildID : Nat)
    (module : RenderSystemModule) (desc : RenderSystemDescriptor) (r : Report)
    (st : Pimpl) (dbg : RenderingDebugger)
    (hb : module.buildID = hostBuildID)
    (ha : module.allocRenderSystem desc = AllocResult.ok (some st))
    (hd : desc.debugger = some dbg) :
    (Load false hostBuildID (some module) desc (some r)).renderSystem =
      some ((RenderSystem.concrete st).setPimplIdentity
        module.rendererName module.rendererID) ∧
    (Load false hostBuildID (some module) desc (some r)).registered = true ∧
    (Load false hostBuildID (some module) desc (some r)).report =
      some (r.Reset ("LLGL was not compiled with debug layer support") true) := by
  simp [Load, hb, ha, hd, Report.Errorf]

/-- Claim C4 witness: stub module plus debugger-requesting descriptor. -/
theorem load_degrades_without_debug_layer_witness :
    (Load false 7 (some okModule) dbgDesc (some Report.init)).registered = true ∧
    (Load false 7 (some okModule) dbgDesc (some Report.init)).renderSystem =
      some ((RenderSystem.concrete Pimpl.init).setPimplIdentity ("Null") 1) :=
  ⟨(load_degrades_without_debug_layer 7 okModule dbgDesc Report.init Pimpl.init
      { breakOnError := false } rfl rfl rfl).2.1,
    (load_degrades_without_debug_layer 7 okModule dbgDesc Report.init Pimpl.init
      { breakOnError := false } rfl rfl rfl).1⟩

/-- Claim C6: whatever handle a successful Load returns, decorated or not,
its observable identity equals the identity accessors of the producing
module. -/
theorem loaded_identity_is_module_identity (enableDebugLayer : Bool) (hostBuildID : Nat)
    (module : RenderSystemModule) (desc : RenderSystemDescriptor)
    (report : Option Report) (rs : RenderSystem)
    (h : (Load enableDebugLayer hostBuildID (some module) desc report).renderSystem = some rs) :
    rs.GetName = module.rendererName ∧ rs.GetRendererID = module.rendererID := by
  by_cases hb : module.buildID = hostBuildID
  · cases ha : module.allocRenderSystem desc with
    | thrown msg =>
        rw [Load_thrown_eq enableDebugLayer hostBuildID module desc report msg hb ha] at h
        simp at h
    | ok o =>
        cases o with
        | none =>
            rw [Load_alloc_null_eq enableDebugLayer hostBuildID module desc report hb ha] at h
            simp at h
        | some st =>
            obtain ⟨-, -, rs2, hrs2, hn, hi⟩ :=
              Load_ok_some_spec enableDebugLayer hostBuildID module desc report st hb ha
            rw [h] at hrs2
            injection hrs2 with he
            subst he
            exact ⟨hn, hi⟩
  · rw [Load_mismatch_eq enableDebugLayer hostBuildID module desc report hb] at h
    simp at h

/-- Claim C6 witness: identity of a concrete successful load, decorated. -/
theorem loaded_identity_is_module_identity_witness :
    ((RenderSystem.debug Pimpl.init false
        (RenderSystem.concrete Pimpl.init)).setPimplIdentity ("Null") 1).GetName = "Null" :=
  (loaded_identity_is_module_identity true 7 okModule dbgDesc none
    ((RenderSystem.debug Pimpl.init false
        (RenderSystem.concrete Pimpl.init)).setPimplIdentity ("Null") 1) rfl).1

/-- Claim C3: a factory exception is caught at the module boundary and
re-expressed through the locally owned report channel with no instance
returned; registration happens exactly on the paths where the factory
returned a non-null instance, so every failing load leaves no registry
entry. -/
theorem load_boundary_translation_and_registration (enableDebugLayer : Bool)
    (hostBuildID : Nat) :
    (∀ (module : RenderSystemModule) (desc : RenderSystemDescriptor)
        (report : Option Report) (msg : String),
        module.buildID = hostBuildID →
        module.allocRenderSystem desc = AllocResult.thrown msg →
        (Load enableDebugLayer hostBuildID (some module) desc report).renderSystem = none ∧
        (Load enableDebugLayer hostBuildID (some module) desc report).registered = false ∧
        (Load enableDebugLayer hostBuildID (some module) desc report).report =
          ReportException report msg) ∧
    (∀ (resolve : Option RenderSystemModule) (desc : RenderSystemDescriptor)
        (report : Option Report),
        (Load enableDebugLayer hostBuildID resolve desc report).registered = true →
        ∃ (module : RenderSystemModule) (st : Pimpl),
          resolve = some module ∧
          module.allocRenderSystem desc = AllocResult.ok (some st) ∧
          (Load enableDebugLayer hostBuildID resolve desc report).renderSystem.isSome = true) ∧
    (∀ (resolve : Option RenderSystemModule) (desc : RenderSystemDescriptor)
        (report : Option Report),
        (Load enableDebugLayer hostBuildID resolve desc report).renderSystem = none →
        (Load enableDebugLayer hostBuildID resolve desc report).registered = false) := by
  refine ⟨?_, ?_, ?_⟩
  · intro module desc report msg hb ha
    rw [Load_thrown_eq enableDebugLayer hostBuildID module desc report msg hb ha]
    exact ⟨rfl, rfl, rfl⟩
  · intro resolve desc report hreg
    cases resolve with
    | none => simp [Load] at hreg
    | some module =>
        by_cases hb : module.buildID = hostBuildID
        · cases ha : module.allocRenderSystem desc with
          | thrown msg =>
              rw [Load_thrown_eq enableDebugLayer hostBuildID module desc report msg hb ha]
                at hreg
              simp at hreg
          | ok o =>
              cases o with
              | none =>
                  rw [Load_alloc_null_eq enableDebugLayer hostBuildID module desc report hb ha]
                    at hreg
                  simp at hreg
              | some st =>
                  obtain ⟨-, -, rs, hrs, -, -⟩ :=
                    Load_ok_some_spec enableDebugLayer hostBuildID module desc report st hb ha
                  exact ⟨module, st, rfl, ha, by rw [hrs]; rfl⟩
        · rw [Load_mismatch_eq enableDebugLayer hostBuildID module desc report hb] at hreg
          simp at hreg
  · intro resolve desc report hnone
    cases resolve with
    | none => rfl
    | some module =>
        by_cases hb : module.buildID = hostBuildID
        · cases ha : module.allocRenderSystem desc with
          | thrown msg =>
              rw [Load_thrown_eq enableDebugLayer hostBuildID module desc report msg hb ha]
          | ok o =>
              cases o with
              | none =>
                  rw [Load_alloc_null_eq enableDebugLayer hostBuildID module desc report hb ha]
              | some st =>
                  obtain ⟨-, -, rs, hrs, -, -⟩ :=
                    Load_ok_some_spec enableDebugLayer hostBuildID module desc report st hb ha
                  rw [hnone] at hrs
                  simp at hrs
        · rw [Load_mismatch_eq enableDebugLayer hostBuildID module desc report hb]

/-- Claim C3 witness: a throwing stub module. -/
theorem load_boundary_translation_witness :
    (Load true 7 (some throwModule) nullDesc (some Report.init)).renderSystem = none ∧
    (Load true 7 (some throwModule) nullDesc (some Report.init)).registered = false :=
  ⟨((load_boundary_translation_and_registration true 7).1 throwModule nullDesc
      (some Report.init) ("module failure") rfl rfl).1,
    ((load_boundary_translation_and_registration true 7).1 throwModule nullDesc
      (some Report.init) ("module failure") rfl rfl).2.1⟩

theorem runGetInfo_cached (f : Nat → Bool × RendererInfo) :
    ∀ (n : Nat) (st : Pimpl) (k : Nat), st.hasInfo = true →
      runGetInfo f n st k = (st, k) := by
  intro n
  induction n with
  | zero => intro st k _; rfl
  | succ n ih =>
      intro st k h
      have hq : GetRendererInfo (f k) st = (st, st.info, false) := by
        simp [GetRendererInfo, h]
      simp only [runGetInfo, hq]
      exact ih st k h

theorem runGetInfo_first_success (f : Nat → Bool × RendererInfo)
    (st : Pimpl) (n : Nat) (h : st.hasInfo = false) (hq : (f 0).1 = true) :
    runGetInfo f (n + 1) st 0 = ({ st with hasInfo := true, info := (f 0).2 }, 1) := by
  have hg : GetRendererInfo (f 0) st =
      ({ st with hasInfo := true, info := (f 0).2 }, (f 0).2, true) := by
    simp [GetRendererInfo, h, hq]
  simp only [runGetInfo, hg]
  exact runGetInfo_cached f n _ 1 rfl

theorem runGetInfo_all_fail (f : Nat → Bool × RendererInfo)
    (hf : ∀ k, (f k).1 = false) :
    ∀ (n : Nat) (st : Pimpl) (k : Nat), st.hasInfo = false →
      runGetInfo f n st k = (st, k + n) := by
  intro n
  induction n with
  | zero => intro st k h; rfl
  | succ n ih =>
      intro st k h
      have hg : GetRendererInfo (f k) st = (st, st.info, true) := by
        simp [GetRendererInfo, h, hf k]
      simp only [runGetInfo, hg, if_true]
      rw [ih st (k + 1) h]
      refine congrArg (Prod.mk st) ?_
      omega

theorem runGetCaps_cached (f : Nat → Bool × RenderingCapabilities) :
    ∀ (n : Nat) (st : Pimpl) (k : Nat), st.hasCaps = true →
      runGetCaps f n st k = (st, k) := by
  intro n
  induction n with
  | zero => intro st k _; rfl
  | succ n ih =>
      intro st k h
      have hq : GetRenderingCaps (f k) st = (st, st.caps, false) := by
        simp [GetRenderingCaps, h]
      simp only [runGetCaps, hq]
      exact ih st k h

theorem runGetCaps_first_success (f : Nat → Bool × RenderingCapabilities)
    (st : Pimpl) (n : Nat) (h : st.hasCaps = false) (hq : (f 0).1 = true) :
    runGetCaps f (n + 1) st 0 = ({ st with hasCaps := true, caps := (f 0).2 }, 1) := by
  have hg : GetRenderingCaps (f 0) st =
      ({ st with hasCaps := true, caps := (f 0).2 }, (f 0).2, true) := by
    simp [GetRenderingCaps, h, hq]
  simp only [runGetCaps, hg]
  exact runGetCaps_cached f n _ 1 rfl

theorem runGetCaps_all_fail (f : Nat → Bool × RenderingCapabilities)
    (hf : ∀ k, (f k).1 = false) :
    ∀ (n : Nat) (st : Pimpl) (k : Nat), st.hasCaps = false →
      runGetCaps f n st k = (st, k + n) := by
  intro n
  induction n with
  | zero => intro st k h; rfl
  | succ n ih =>
      intro st k h
      have hg : GetRenderingCaps (f k) st = (st, st.caps, true) := by
        simp [GetRenderingCaps, h, hf k]
      simp only [runGetCaps, hg, if_true]
      rw [ih st (k + 1) h]
      refine congrArg (Prod.mk st) ?_
      omega

/-- Claim C5: GetRendererInfo and GetRenderingCaps follow the lazy pattern:
with the computed flag set, a call returns the cached value without
invoking the query; with the flag clear, a call invokes the query, a
successful query populates the cache and marks it computed, a failed query
leaves the state untouched; across a sequence of calls whose first query
succeeds the query runs exactly once, and when every query fails every
call re-attempts it and the cache stays unpopulated. -/
theorem lazy_cache_spec :
    (∀ (q : Bool × RendererInfo) (st : Pimpl), st.hasInfo = true →
      GetRendererInfo q st = (st, st.info, false)) ∧
    (∀ (v : RendererInfo) (st : Pimpl), st.hasInfo = false →
      GetRendererInfo (true, v) st = ({ st with hasInfo := true, info := v }, v, true)) ∧
    (∀ (v : RendererInfo) (st : Pimpl), st.hasInfo = false →
      GetRendererInfo (false, v) st = (st, st.info, true)) ∧
    (∀ (f : Nat → Bool × RendererInfo) (st : Pimpl) (n : Nat),
      st.hasInfo = false → (f 0).1 = true →
      runGetInfo f (n + 1) st 0 = ({ st with hasInfo := true, info := (f 0).2 }, 1)) ∧
    (∀ (f : Nat → Bool × RendererInfo) (st : Pimpl) (n : Nat),
      st.hasInfo = false → (∀ k, (f k).1 = false) →
      runGetInfo f n st 0 = (st, n)) ∧
    (∀ (q : Bool × RenderingCapabilities) (st : Pimpl), st.hasCaps = true →
      GetRenderingCaps q st = (st, st.caps, false)) ∧
    (∀ (v : RenderingCapabilities) (st : Pimpl), st.hasCaps = false →
      GetRenderingCaps (true, v) st = ({ st with hasCaps := true, caps := v }, v, true)) ∧
    (∀ (v : RenderingCapabilities) (st : Pimpl), st.hasCaps = false →
      GetRenderingCaps (false, v) st = (st, st.caps, true)) ∧
    (∀ (f : Nat → Bool × RenderingCapabilities) (st : Pimpl) (n : Nat),
      st.hasCaps = false → (f 0).1 = true →
      runGetCaps f (n + 1) st 0 = ({ st with hasCaps := true, caps := (f 0).2 }, 1)) ∧
    (∀ (f : Nat → Bool × RenderingCapabilities) (st : Pimpl) (n : Nat),
      st.hasCaps = false → (∀ k, (f k).1 = false) →
      runGetCaps f n st 0 = (st, n)) := by
  refine ⟨?_, ?_, ?_, ?_, ?_, ?_, ?_, ?_, ?_, ?_⟩
  · intro q st h; simp [GetRendererInfo, h]
  · intro v st h; simp [GetRendererInfo, h]
  · intro v st h; simp [GetRendererInfo, h]
  · intro f st n h hq; exact runGetInfo_first_success f st n h hq
  · intro f st n h hf
    have := runGetInfo_all_fail f hf n st 0 h
    simpa using this
  · intro q st h; simp [GetRenderingCaps, h]
  · intro v st h; simp [GetRenderingCaps, h]
  · intro v st h; simp [GetRenderingCaps, h]
  · intro f st n h hq; exact runGetCaps_first_success f st n h hq
  · intro f st n h hf
    have := runGetCaps_all_fail f hf n st 0 h
    simpa using this

/-- Claim C5 witness: three calls with an always-failing query re-attempt
three times and leave the cache unpopulated. -/
theorem lazy_cache_spec_witness :
    runGetInfo (fun _ => (false, { data := 3 })) 3 Pimpl.init 0 = (Pimpl.init, 3) :=
  lazy_cache_spec.2.2.2.2.1 (fun _ => (false, { data := 3 })) Pimpl.init 3 rfl
    (fun _ => rfl)

/-- Claim C9 counterexample: Errorf called with an empty formatted message
marks the report as an error whose message is empty, violating the claimed
invariant that an error-marked report has a non-empty message. -/
theorem errorf_empty_message_counterexample :
    (Errorf ("") Pimpl.init).report.hasError = true ∧
    (Errorf ("") Pimpl.init).report.text = "" :=
  ⟨rfl, rfl⟩

/-- Claim C9 (amended): Errorf marks the report as an error whose message
is exactly the formatted text, hence non-empty whenever the formatted text
is non-empty; and GetReport returns absence precisely when the report was
never populated, so a never-populated report stays distinguishable from a
populated report with an empty message. -/
theorem errorf_marks_error_and_getReport_absence (s : String) (st : Pimpl)
    (h : s ≠ "") :
    (Errorf s st).report.hasError = true ∧
    (Errorf s st).report.text = s ∧
    (Errorf s st).report.text ≠ "" ∧
    ∀ st2 : Pimpl, GetReport st2 = none ↔ st2.report.populated = false := by
  refine ⟨rfl, rfl, h, ?_⟩
  intro st2
  cases hp : st2.report.populated <;> simp [GetReport, Report.toBool, hp]

/-- Claim C9 witness: a non-empty message. -/
theorem errorf_marks_error_witness :
    (Errorf ("out of memory") Pimpl.init).report.hasError = true ∧
    (Errorf ("out of memory") Pimpl.init).report.text ≠ "" :=
  ⟨(errorf_marks_error_and_getReport_absence ("out of memory") Pimpl.init
      (by decide)).1,
    (errorf_marks_error_and_getReport_absence ("out of memory") Pimpl.init
      (by decide)).2.2.1⟩

theorem LLGL_ASSERT_pos (cond : Prop) [Decidable cond] (msg : String) (h : cond) :
    LLGL_ASSERT cond msg = Except.ok () := if_pos h

theorem LLGL_ASSERT_neg (cond : Prop) [Decidable cond] (msg : String) (h : ¬ cond) :
    LLGL_ASSERT cond msg = Except.error msg := if_neg h

theorem except_bind_ok {α β : Type} (a : α) (f : α → Except String β) :
    (Except.ok a).bind f = f a := rfl

theorem except_bind_error {α β : Type} (m : String) (f : α → Except String β) :
    (Except.error m).bind f = Except.error m := rfl

theorem AssertCreateBuffer_eq (bufferDesc : BufferDescriptor) (maxSize : Nat) :
    AssertCreateBuffer bufferDesc maxSize =
      (LLGL_ASSERT (bufferDesc.size ≤ maxSize)
        ("buffer descriptor with size of " ++ toString bufferDesc.size ++
          " exceeded limit of " ++ toString maxSize)).bind fun _ =>
        LLGL_ASSERT (bufferDesc.bindFlags &&& (LONG_MASK ^^^ validBindFlags) = 0)
          ("buffer descriptor with invalid binding flags " ++
            toString bufferDesc.bindFlags) := rfl

theorem validBindFlags_lt : validBindFlags < 2 ^ 64 := by
  decide

theorem LONG_MASK_testBit (j : Nat) : Nat.testBit LONG_MASK j = decide (j < 64) :=
  Nat.testBit_two_pow_sub_one 64 j

theorem and_compl_eq_zero_of_subset (flags : Nat)
    (hsub : flags &&& validBindFlags = flags) :
    flags &&& (LONG_MASK ^^^ validBindFlags) = 0 := by
  refine Nat.eq_of_testBit_eq fun j => ?_
  rw [Nat.zero_testBit, Nat.testBit_and, Nat.testBit_xor, LONG_MASK_testBit]
  cases hbf : Nat.testBit flags j with
  | false => simp [hbf]
  | true =>
      have hv : Nat.testBit validBindFlags j = true := by
        have := congrArg (fun x => Nat.testBit x j) hsub
        simp only [Nat.testBit_and, hbf, Bool.true_and] at this
        exact this
      have hj : j < 64 := by
        by_contra hj
        have h64 : 2 ^ 64 ≤ 2 ^ j := Nat.pow_le_pow_right (by omega) (by omega)
        have hfalse : Nat.testBit validBindFlags j = false :=
          Nat.testBit_lt_two_pow (Nat.lt_of_lt_of_le validBindFlags_lt h64)
        rw [hfalse] at hv
        cases hv
      simp [hv, hj]

theorem and_compl_ne_zero_of_stray_bit (flags i : Nat)
    (hlt : flags < 2 ^ 64) (hbit : Nat.testBit flags i = true)
    (hvbit : Nat.testBit validBindFlags i = false) :
    flags &&& (LONG_MASK ^^^ validBindFlags) ≠ 0 := by
  intro h0
  have hi : i < 64 := by
    have hge := Nat.testBit_implies_ge hbit
    by_contra hj
    have h64 : 2 ^ 64 ≤ 2 ^ i := Nat.pow_le_pow_right (by omega) (by omega)
    omega
  have hq := congrArg (fun x => Nat.testBit x i) h0
  simp [Nat.testBit_and, Nat.testBit_xor, LONG_MASK_testBit, hbit, hvbit, hi] at hq

/-- Claim C7: AssertCreateBuffer succeeds when the size equals the
caller-supplied maximum and the bind flags stay inside the fixed allowed
set; it fails whenever the size exceeds the maximum, and it fails whenever
the bind flags carry at least one bit outside the allowed set, whatever the
other bits are. -/
theorem assertCreateBuffer_bounds :
    (∀ (bufferDesc : BufferDescriptor) (maxSize : Nat),
      bufferDesc.size = maxSize →
      bufferDesc.bindFlags &&& validBindFlags = bufferDesc.bindFlags →
      AssertCreateBuffer bufferDesc maxSize = Except.ok ()) ∧
    (∀ (bufferDesc : BufferDescriptor) (maxSize : Nat),
      maxSize < bufferDesc.size →
      ∃ m, AssertCreateBuffer bufferDesc maxSize = Except.error m) ∧
    (∀ (bufferDesc : BufferDescriptor) (maxSize : Nat) (i : Nat),
      bufferDesc.bindFlags < 2 ^ 64 →
      Nat.testBit bufferDesc.bindFlags i = true →
      Nat.testBit validBindFlags i = false →
      ∃ m, AssertCreateBuffer bufferDesc maxSize = Except.error m) := by
  refine ⟨?_, ?_, ?_⟩
  · intro bufferDesc maxSize hsz hsub
    have h0 := and_compl_eq_zero_of_subset bufferDesc.bindFlags hsub
    rw [AssertCreateBuffer_eq, LLGL_ASSERT_pos _ _ (by omega), except_bind_ok,
      LLGL_ASSERT_pos _ _ h0]
  · intro bufferDesc maxSize h
    refine ⟨("buffer descriptor with size of " ++ toString bufferDesc.size ++
      " exceeded limit of " ++ toString maxSize), ?_⟩
    rw [AssertCreateBuffer_eq, LLGL_ASSERT_neg _ _ (by omega), except_bind_error]
  · intro bufferDesc maxSize i hlt hbit hvbit
    have hne := and_compl_ne_zero_of_stray_bit bufferDesc.bindFlags i hlt hbit hvbit
    by_cases hsz : bufferDesc.size ≤ maxSize
    · refine ⟨("buffer descriptor with invalid binding flags " ++
        toString bufferDesc.bindFlags), ?_⟩
      rw [AssertCreateBuffer_eq, LLGL_ASSERT_pos _ _ hsz, except_bind_ok,
        LLGL_ASSERT_neg _ _ hne]
    · refine ⟨("buffer descriptor with size of " ++ toString bufferDesc.size ++
        " exceeded limit of " ++ toString maxSize), ?_⟩
      rw [AssertCreateBuffer_eq, LLGL_ASSERT_neg _ _ hsz, except_bind_error]

/-- Claim C7 witness: size at the limit with an allowed flag succeeds; the
stray ColorAttachment bit (bit 7, outside the allowed set) fails even
together with valid bits; size one past the limit fails. -/
theorem assertCreateBuffer_bounds_witness :
    AssertCreateBuffer { size := 100, bindFlags := 1 } 100 = Except.ok () ∧
    (∃ m, AssertCreateBuffer { size := 99, bindFlags := 129 } 100 = Except.error m) ∧
    (∃ m, AssertCreateBuffer { size := 101, bindFlags := 1 } 100 = Except.error m) :=
  ⟨assertCreateBuffer_bounds.1 { size := 100, bindFlags := 1 } 100 rfl (by decide),
    assertCreateBuffer_bounds.2.2 { size := 99, bindFlags := 129 } 100 7 (by decide)
      (by decide) (by decide),
    assertCreateBuffer_bounds.2.1 { size := 101, bindFlags := 1 } 100 (by decide)⟩

theorem assertArrayElements_succ (arr : Nat → Bool) (resourceName : String) (n i : Nat) :
    assertArrayElements arr resourceName (n + 1) i =
      (LLGL_ASSERT (arr i = true)
        ("cannot create " ++ resourceName ++
          " array with null pointer for array element [" ++ toString i ++ "]")).bind
        fun _ => assertArrayElements arr resourceName n (i + 1) := rfl

theorem assertArrayElements_ok (arr : Nat → Bool) (resourceName : String) :
    ∀ (n i : Nat), (∀ j, j < n → arr (i + j) = true) →
      assertArrayElements arr resourceName n i = Except.ok () := by
  intro n
  induction n with
  | zero => intro i _; rfl
  | succ n ih =>
      intro i h
      have h0 : arr i = true := by
        have := h 0 (Nat.succ_pos n)
        simpa using this
      have hrest : ∀ j, j < n → arr (i + 1 + j) = true := by
        intro j hj
        have := h (j + 1) (by omega)
        have he : i + (j + 1) = i + 1 + j := by omega
        rwa [he] at this
      rw [assertArrayElements_succ, LLGL_ASSERT_pos _ _ h0, except_bind_ok]
      exact ih (i + 1) hrest

theorem assertArrayElements_err (arr : Nat → Bool) (resourceName : String) :
    ∀ (n i k : Nat), k < n → arr (i + k) = false → (∀ j, j < k → arr (i + j) = true) →
      assertArrayElements arr resourceName n i =
        Except.error ("cannot create " ++ resourceName ++
          " array with null pointer for array element [" ++ toString (i + k) ++ "]") := by
  intro n
  induction n with
  | zero => intro i k hk; omega
  | succ n ih =>
      intro i k hk hak hjk
      cases k with
      | zero =>
          have h0 : ¬ (arr i = true) := by simpa using hak
          rw [assertArrayElements_succ, LLGL_ASSERT_neg _ _ h0, except_bind_error]
          simp
      | succ k =>
          have h0 : arr i = true := by
            have := hjk 0 (Nat.succ_pos k)
            simpa using this
          rw [assertArrayElements_succ, LLGL_ASSERT_pos _ _ h0, except_bind_ok]
          have hak2 : arr (i + 1 + k) = false := by
            have he : i + (k + 1) = i + 1 + k := by omega
            rwa [he] at hak
          have hjk2 : ∀ j, j < k → arr (i + 1 + j) = true := by
            intro j hj
            have := hjk (j + 1) (by omega)
            have he : i + (j + 1) = i + 1 + j := by omega
            rwa [he] at this
          have hres := ih (i + 1) k (by omega) hak2 hjk2
          have he2 : i + 1 + k = i + (k + 1) := by omega
          rwa [he2] at hres

theorem AssertCreateResourceArrayCommon_eq (numResources : Nat)
    (resourceArray : Option (Nat → Bool)) (resourceName : String) :
    AssertCreateResourceArrayCommon numResources resourceArray resourceName =
      (LLGL_ASSERT (¬(numResources = 0))
        ("cannot create " ++ resourceName ++ " array with zero elements")).bind fun _ =>
        (LLGL_ASSERT (¬(resourceArray.isNone = true))
          ("cannot create " ++ resourceName ++
            " array with null pointer for array")).bind fun _ =>
          match resourceArray with
          | some arr => assertArrayElements arr resourceName numResources 0
          | none => Except.ok () := rfl

/-- Claim C8: resource-array validation fails on a zero count, fails on a
null array pointer, checks element pointers individually in index order so
that the first null element at index i is reported with a message naming
index i, and succeeds when the count is nonzero, the array is non-null and
every element is non-null; AssertCreateBufferArray is the same routine
instantiated for buffers. -/
theorem resource_array_validation_spec :
    (∀ (resourceArray : Option (Nat → Bool)) (resourceName : String),
      AssertCreateResourceArrayCommon 0 resourceArray resourceName =
        Except.error ("cannot create " ++ resourceName ++ " array with zero elements")) ∧
    (∀ (numResources : Nat) (resourceName : String), numResources ≠ 0 →
      AssertCreateResourceArrayCommon numResources none resourceName =
        Except.error ("cannot create " ++ resourceName ++
          " array with null pointer for array")) ∧
    (∀ (numResources : Nat) (arr : Nat → Bool) (resourceName : String) (i : Nat),
      i < numResources → arr i = false → (∀ j, j < i → arr j = true) →
      AssertCreateResourceArrayCommon numResources (some arr) resourceName =
        Except.error ("cannot create " ++ resourceName ++
          " array with null pointer for array element [" ++ toString i ++ "]")) ∧
    (∀ (numResources : Nat) (arr : Nat → Bool) (resourceName : String),
      numResources ≠ 0 → (∀ j, j < numResources → arr j = true) →
      AssertCreateResourceArrayCommon numResources (some arr) resourceName =
        Except.ok ()) ∧
    (∀ (numBuffers : Nat) (bufferArray : Option (Nat → Bool)),
      AssertCreateBufferArray numBuffers bufferArray =
        AssertCreateResourceArrayCommon numBuffers bufferArray ("buffer")) := by
  refine ⟨?_, ?_, ?_, ?_, ?_⟩
  · intro resourceArray resourceName
    rw [AssertCreateResourceArrayCommon_eq, LLGL_ASSERT_neg _ _ (by omega),
      except_bind_error]
  · intro numResources resourceName hn
    rw [AssertCreateResourceArrayCommon_eq, LLGL_ASSERT_pos _ _ hn, except_bind_ok,
      LLGL_ASSERT_neg _ _ (by simp), except_bind_error]
  · intro numResources arr resourceName i hi hai hji
    have hn : ¬ numResources = 0 := by omega
    have he := assertArrayElements_err arr resourceName numResources 0 i hi
      (by simpa using hai) (fun j hj => by simpa using hji j hj)
    rw [AssertCreateResourceArrayCommon_eq, LLGL_ASSERT_pos _ _ hn, except_bind_ok,
      LLGL_ASSERT_pos _ _ (by simp), except_bind_ok]
    simpa using he
  · intro numResources arr resourceName hn hall
    have he := assertArrayElements_ok arr resourceName numResources 0
      (fun j hj => by simpa using hall j hj)
    rw [AssertCreateResourceArrayCommon_eq, LLGL_ASSERT_pos _ _ hn, except_bind_ok,
      LLGL_ASSERT_pos _ _ (by simp), except_bind_ok]
    exact he
  · intro numBuffers bufferArray
    rfl

/-- Claim C8 witness: count 3 with the element at index 1 null is rejected
with a message naming index 1; the all-non-null array is accepted. -/
theorem resource_array_validation_witness :
    AssertCreateResourceArrayCommon 3 (some fun i => decide (i ≠ 1)) ("buffer") =
      Except.error ("cannot create " ++ "buffer" ++
        " array with null pointer for array element [" ++ toString 1 ++ "]") ∧
    AssertCreateResourceArrayCommon 3 (some fun _ => true) ("buffer") = Except.ok () :=
  ⟨resource_array_validation_spec.2.2.1 3 (fun i => decide (i ≠ 1)) ("buffer") 1
      (by omega) (by decide)
      (fun j hj => by
        have hj0 : j = 0 := by omega
        subst hj0
        decide),
    resource_array_validation_spec.2.2.2.1 3 (fun _ => true) ("buffer")
      (by omega) (fun j _ => rfl)⟩

end LLGL
